import Mathlib

/-
Verification of the software rasterizer in this repository
(src/main.rs and src/shaders.rs) against its design specification.

Shallow embedding conventions:
* f32 arithmetic is modelled exactly over the real numbers.
* nalgebra Mat4 / Mat3 are Mathlib matrices over ℝ, written row-major
  with the !![...] literal, matching the row-major argument order of
  Mat4::new and Mat3::new in the source.
* Vec2 / Vec3 / Vec4 are structures with named fields x, y, z, w
  mirroring nalgebra accessors.
* the u32 frame counter is a ℕ.
* the FastNoiseLite noise handle is an external collaborator; it is
  modelled as a pair of uninterpreted sampling functions, which is all
  the shaders in src/shaders.rs use of it.
-/

namespace Proyecto3

abbrev Mat4 := Matrix (Fin 4) (Fin 4) ℝ

abbrev Mat3 := Matrix (Fin 3) (Fin 3) ℝ

/-- Two dimensional f32 vector, as used for fragment screen positions. -/
@[ext]
structure Vec2 where
  x : ℝ
  y : ℝ

/-- Three dimensional f32 vector (nalgebra Vec3). -/
@[ext]
structure Vec3 where
  x : ℝ
  y : ℝ
  z : ℝ

/-- Four dimensional homogeneous f32 vector (nalgebra Vec4). -/
@[ext]
structure Vec4 where
  x : ℝ
  y : ℝ
  z : ℝ
  w : ℝ

/-- Matrix times homogeneous 4-vector, the action written `M * v` in the
source for nalgebra types. -/
def mulVec4 (M : Mat4) (v : Vec4) : Vec4 :=
  ⟨M 0 0 * v.x + M 0 1 * v.y + M 0 2 * v.z + M 0 3 * v.w,
   M 1 0 * v.x + M 1 1 * v.y + M 1 2 * v.z + M 1 3 * v.w,
   M 2 0 * v.x + M 2 1 * v.y + M 2 2 * v.z + M 2 3 * v.w,
   M 3 0 * v.x + M 3 1 * v.y + M 3 2 * v.z + M 3 3 * v.w⟩

/-- Matrix times 3-vector, the action written `M * v` for Mat3. -/
def mulVec3 (M : Mat3) (v : Vec3) : Vec3 :=
  ⟨M 0 0 * v.x + M 0 1 * v.y + M 0 2 * v.z,
   M 1 0 * v.x + M 1 1 * v.y + M 1 2 * v.z,
   M 2 0 * v.x + M 2 1 * v.y + M 2 2 * v.z⟩

/-- Modelled from the spec: the file color.rs is not under src/, so the
Color type is taken from spec section 4.6: RGB channels as 0..255
integers, with arithmetic clamping each channel to [0,255]. -/
@[ext]
structure Color where
  r : ℤ
  g : ℤ
  b : ℤ

namespace Color

/-- Modelled from the spec: channel clamp of a float result back into
the 0..255 integer range (spec section 4.6; rounding toward negative
infinity is chosen, the spec leaves the rounding mode open). -/
noncomputable def clampChan (v : ℝ) : ℤ :=
  max 0 (min 255 ⌊v⌋)

/-- Color::new. -/
def new (r g b : ℤ) : Color := ⟨r, g, b⟩

/-- Modelled from the spec: Color::black from the absent color.rs. -/
def black : Color := ⟨0, 0, 0⟩

/-- Modelled from the spec: scalar multiplication Color * f32 with
saturating channels (spec section 4.6). -/
noncomputable def mulScalar (c : Color) (s : ℝ) : Color :=
  ⟨clampChan ((c.r : ℝ) * s), clampChan ((c.g : ℝ) * s), clampChan ((c.b : ℝ) * s)⟩

/-- Modelled from the spec: linear interpolation between two colors by a
factor, channels saturating (spec section 4.6). -/
noncomputable def lerp (a b : Color) (t : ℝ) : Color :=
  ⟨clampChan ((a.r : ℝ) + ((b.r : ℝ) - (a.r : ℝ)) * t),
   clampChan ((a.g : ℝ) + ((b.g : ℝ) - (a.g : ℝ)) * t),
   clampChan ((a.b : ℝ) + ((b.b : ℝ) - (a.b : ℝ)) * t)⟩

end Color

noncomputable instance : HMul Color ℝ Color := ⟨Color.mulScalar⟩

/-- The FastNoiseLite handle, an external crate: modelled as its two
sampling entry points used by src/shaders.rs. -/
structure NoiseSource where
  get_noise_2d : ℝ → ℝ → ℝ
  get_noise_3d : ℝ → ℝ → ℝ → ℝ

/-- The Uniforms bundle from src/main.rs lines 31-38. -/
structure Uniforms where
  model_matrix : Mat4
  view_matrix : Mat4
  projection_matrix : Mat4
  viewport_matrix : Mat4
  time : ℕ
  noise : NoiseSource

/-- Modelled from the spec: vertex.rs is not under src/; the field list
is fixed by spec section 3 and by the struct literal in
src/shaders.rs lines 37-44. -/
@[ext]
structure Vertex where
  position : Vec3
  normal : Vec3
  tex_coords : Vec2
  color : Color
  transformed_position : Vec3
  transformed_normal : Vec3

/-- Modelled from the spec: fragment.rs is not under src/; the field
list is fixed by spec section 3 and by the uses in src/main.rs render
and src/shaders.rs. -/
@[ext]
structure Fragment where
  position : Vec2
  depth : ℝ
  intensity : ℝ
  vertex_position : Vec3

/- ================= Transform stage (src/main.rs) ================= -/

/-- Rotation about X from src/main.rs lines 55-60 (row-major Mat4::new). -/
noncomputable def rotation_matrix_x (rx : ℝ) : Mat4 :=
  !![1, 0, 0, 0;
     0, Real.cos rx, -Real.sin rx, 0;
     0, Real.sin rx, Real.cos rx, 0;
     0, 0, 0, 1]

/-- Rotation about Y from src/main.rs lines 62-67. -/
noncomputable def rotation_matrix_y (ry : ℝ) : Mat4 :=
  !![Real.cos ry, 0, Real.sin ry, 0;
     0, 1, 0, 0;
     -Real.sin ry, 0, Real.cos ry, 0;
     0, 0, 0, 1]

/-- Rotation about Z from src/main.rs lines 69-74. -/
noncomputable def rotation_matrix_z (rz : ℝ) : Mat4 :=
  !![Real.cos rz, -Real.sin rz, 0, 0;
     Real.sin rz, Real.cos rz, 0, 0;
     0, 0, 1, 0;
     0, 0, 0, 1]

/-- create_model_matrix from src/main.rs lines 50-86: combined
translate-scale matrix times the rotation product Rz * Ry * Rx. -/
noncomputable def create_model_matrix (translation : Vec3) (scale : ℝ) (rotation : Vec3) : Mat4 :=
  let rotation_matrix :=
    rotation_matrix_z rotation.z * rotation_matrix_y rotation.y * rotation_matrix_x rotation.x
  let transform_matrix : Mat4 :=
    !![scale, 0, 0, translation.x;
       0, scale, 0, translation.y;
       0, 0, scale, translation.z;
       0, 0, 0, 1]
  transform_matrix * rotation_matrix

/-- A pure translation matrix, following the words of spec section 4.2
(used to compare create_model_matrix against the spec formula). -/
def translation_matrix (t : Vec3) : Mat4 :=
  !![1, 0, 0, t.x;
     0, 1, 0, t.y;
     0, 0, 1, t.z;
     0, 0, 0, 1]

/-- A uniform scale matrix, following the words of spec section 4.2. -/
def scale_matrix (s : ℝ) : Mat4 :=
  !![s, 0, 0, 0;
     0, s, 0, 0;
     0, 0, s, 0;
     0, 0, 0, 1]

/-- create_viewport_matrix from src/main.rs lines 102-109. -/
noncomputable def create_viewport_matrix (width height : ℝ) : Mat4 :=
  !![width / 2, 0, 0, width / 2;
     0, -height / 2, 0, height / 2;
     0, 0, 1, 0;
     0, 0, 0, 1]

/-- The orbital translation computed inline by the render loop of
src/main.rs lines 216-222 for angle = time * orbital_speed. -/
noncomputable def orbit_translation (initial : Vec3) (angle : ℝ) : Vec3 :=
  ⟨initial.x * Real.cos angle - initial.y * Real.sin angle,
   initial.x * Real.sin angle + initial.y * Real.cos angle,
   initial.z⟩

/-- The per-frame angle computed in src/main.rs line 217. -/
def frame_angle (time : ℕ) (orbital_speed : ℝ) : ℝ :=
  (time : ℝ) * orbital_speed

/-- calculate_orbit_position from src/main.rs lines 155-159 (defined in
the source but not invoked by the render loop, which uses the inline
formula modelled by orbit_translation). -/
noncomputable def calculate_orbit_position (time orbit_radius angular_velocity : ℝ) : Vec3 :=
  ⟨orbit_radius * Real.cos (time * angular_velocity),
   0,
   orbit_radius * Real.sin (time * angular_velocity)⟩

/- ================= Vertex shader (src/shaders.rs) ================= -/

/-- mat4_to_mat3 from nalgebra_glm: upper-left 3 by 3 block. -/
def mat4_to_mat3 (M : Mat4) : Mat3 :=
  !![M 0 0, M 0 1, M 0 2;
     M 1 0, M 1 1, M 1 2;
     M 2 0, M 2 1, M 2 2]

open Classical in
/-- nalgebra try_inverse on a 3 by 3 matrix: some inverse when the
determinant is nonzero, none when singular. -/
noncomputable def try_inverse3 (M : Mat3) : Option Mat3 :=
  if M.det = 0 then none else some M⁻¹

/-- vertex_shader from src/shaders.rs lines 12-45.  Note the perspective
divide at lines 23-27 divides by w with no guard; real division is total
in this model (x / 0 = 0) whereas IEEE f32 division by zero produces a
non-finite value, so the w = 0 case is analysed separately in the C1
theorem below. -/
noncomputable def vertex_shader (vertex : Vertex) (uniforms : Uniforms) : Vertex :=
  let position : Vec4 := ⟨vertex.position.x, vertex.position.y, vertex.position.z, 1⟩
  let transformed :=
    mulVec4 (uniforms.projection_matrix * uniforms.view_matrix * uniforms.model_matrix) position
  let w := transformed.w
  let transformed_position : Vec4 :=
    ⟨transformed.x / w, transformed.y / w, transformed.z / w, 1⟩
  let screen_position := mulVec4 uniforms.viewport_matrix transformed_position
  let model_mat3 := mat4_to_mat3 uniforms.model_matrix
  let normal_matrix := (try_inverse3 model_mat3.transpose).getD 1
  let transformed_normal := mulVec3 normal_matrix vertex.normal
  { position := vertex.position
    normal := vertex.normal
    tex_coords := vertex.tex_coords
    color := vertex.color
    transformed_position := ⟨screen_position.x, screen_position.y, screen_position.z⟩
    transformed_normal := transformed_normal }

/-- The clip-space w component of projection * view * model applied to a
point, as computed at src/shaders.rs line 20-22. -/
def clip_w (uniforms : Uniforms) (p : Vec3) : ℝ :=
  (mulVec4 (uniforms.projection_matrix * uniforms.view_matrix * uniforms.model_matrix)
    ⟨p.x, p.y, p.z, 1⟩).w

/- ================= Primitive assembly and fragment processing
   (render, src/main.rs lines 110-153) ================= -/

/-- Primitive assembly from src/main.rs lines 123-133: the loop steps
i = 0, 3, 6, ... and pushes the triple (v[i], v[i+1], v[i+2]) whenever
i + 2 < n, which consumes the list in consecutive non-overlapping
triples and drops the trailing remainder. -/
def primitive_assembly {α : Type} : List α → List (α × α × α)
  | a :: b :: c :: rest => (a, b, c) :: primitive_assembly rest
  | _ => []

/-- Rust saturating cast from f32 to usize (`v as usize`): truncation
toward zero, negative values saturate to 0, large values saturate to
usize::MAX. -/
noncomputable def rust_f32_as_usize (v : ℝ) : ℕ :=
  if v ≤ 0 then 0 else min (⌊v⌋.toNat) (2 ^ 64 - 1)

/-- A pixel submission made by the fragment-processing loop to the
framebuffer (set_current_color followed by point, src/main.rs
lines 147-150). -/
structure PixelWrite where
  x : ℕ
  y : ℕ
  depth : ℝ
  color : Color

open Classical in
/-- The fragment-processing loop of render, src/main.rs lines 141-152:
each fragment has its position cast to usize coordinates, and a shaded
pixel is written exactly when x < width and y < height. -/
noncomputable def process_fragments (width height : ℕ)
    (shader_fn : Fragment → Uniforms → Color) (uniforms : Uniforms)
    (fragments : List Fragment) : List PixelWrite :=
  fragments.filterMap fun fragment =>
    let x := rust_f32_as_usize fragment.position.x
    let y := rust_f32_as_usize fragment.position.y
    if x < width ∧ y < height then
      some ⟨x, y, fragment.depth, shader_fn fragment uniforms⟩
    else
      none

/- ================= Fragment shaders (src/shaders.rs) ================= -/

/-- Rust f32 trunc: rounding toward zero. -/
noncomputable def rust_trunc (v : ℝ) : ℝ :=
  if v < 0 then -((⌊-v⌋ : ℤ) : ℝ) else ((⌊v⌋ : ℤ) : ℝ)

/-- Rust f32 fract: v - v.trunc(), keeping the sign of v. -/
noncomputable def rust_fract (v : ℝ) : ℝ :=
  v - rust_trunc v

open Classical in
/-- kamino_shader from src/shaders.rs lines 60-90. -/
noncomputable def kamino_shader (fragment : Fragment) (uniforms : Uniforms) : Color :=
  let zoom : ℝ := 1000
  let ox : ℝ := 100
  let oy : ℝ := 100
  let x := fragment.vertex_position.x
  let y := fragment.vertex_position.y
  let t := (uniforms.time : ℝ) * 0.8
  let noise_value := uniforms.noise.get_noise_2d (x * zoom + ox + t) (y * zoom + oy)
  let detail_noise_value :=
    uniforms.noise.get_noise_2d (x * zoom * 2 + ox + t) (y * zoom * 2 + oy)
  let storm_intensity := detail_noise_value * 0.5 + 0.5
  let lightning := Real.sin (uniforms.time : ℝ) * 10
  let cloud_color_base := Color.new 144 144 144 * (0.5 : ℝ)
  let cloud_color :=
    if storm_intensity > 0.7 ∧ lightning > 0.9 then cloud_color_base * (2 : ℝ)
    else cloud_color_base
  let sky_color := Color.new 0 61 102
  let stormy_sky_color := sky_color * (1 - storm_intensity * 0.5)
  let cloud_threshold : ℝ := 0.3
  let noise_color := if noise_value > cloud_threshold then cloud_color else stormy_sky_color
  noise_color * fragment.intensity

open Classical in
/-- sol_shader from src/shaders.rs lines 91-129. -/
noncomputable def sol_shader (fragment : Fragment) (uniforms : Uniforms) : Color :=
  let bright_color := Color.new 255 255 204
  let dark_color := Color.new 255 51 0
  let position : Vec3 := ⟨fragment.vertex_position.x, fragment.vertex_position.y, fragment.depth⟩
  let base_frequency : ℝ := 0.2
  let pulsate_amplitude : ℝ := 0.5
  let t := (uniforms.time : ℝ) * 0.01
  let pulsate := Real.sin (t * base_frequency) * pulsate_amplitude
  let zoom : ℝ := 1000
  let noise_value1 :=
    uniforms.noise.get_noise_3d (position.x * zoom) (position.y * zoom)
      ((position.z + pulsate) * zoom)
  let noise_value2 :=
    uniforms.noise.get_noise_3d ((position.x + 1000) * zoom) ((position.y + 1000) * zoom)
      ((position.z + 1000 + pulsate) * zoom)
  let noise_value := (noise_value1 + noise_value2) * 0.5
  let base_color := dark_color.lerp bright_color noise_value
  let distance_from_center := Real.sqrt (position.x ^ 2 + position.y ^ 2)
  let radius : ℝ := 0.5
  let falloff := (1 - min (max (distance_from_center / radius) 0) 1) ^ 2
  let brightened_color := base_color * (1 + falloff * 2)
  brightened_color * fragment.intensity

open Classical in
/-- hoth_shader from src/shaders.rs lines 131-161. -/
noncomputable def hoth_shader (fragment : Fragment) (uniforms : Uniforms) : Color :=
  let snow_color := Color.new 255 255 255
  let ice_color := Color.new 173 216 230
  let position : Vec3 := ⟨fragment.vertex_position.x, fragment.vertex_position.y, fragment.depth⟩
  let zoom : ℝ := 500
  let t := (uniforms.time : ℝ) * 0.01
  let noise_value :=
    uniforms.noise.get_noise_3d (position.x * zoom) (position.y * zoom)
      (position.z * zoom + t)
  let ice_threshold : ℝ := 0.3
  let base_color := if noise_value > ice_threshold then ice_color else snow_color
  let intensity_variation := 0.9 + noise_value * 0.1
  base_color * fragment.intensity * intensity_variation

open Classical in
/-- kashyyyk_shader from src/shaders.rs lines 162-200. -/
noncomputable def kashyyyk_shader (fragment : Fragment) (uniforms : Uniforms) : Color :=
  let light_green := Color.new 144 238 144
  let medium_green := Color.new 34 139 34
  let dark_green := Color.new 139 69 19
  let terrain_color := Color.new 0 100 0
  let position : Vec3 := ⟨fragment.vertex_position.x, fragment.vertex_position.y, fragment.depth⟩
  let zoom : ℝ := 300
  let t := (uniforms.time : ℝ) * 0.01
  let noise_value :=
    uniforms.noise.get_noise_3d (position.x * zoom) (position.y * zoom)
      (position.z * zoom + t)
  let vegetation_threshold : ℝ := 0.3
  let vegetation_color :=
    if noise_value > vegetation_threshold then
      if noise_value > 0.7 then dark_green.lerp medium_green ((noise_value - 0.7) * 3)
      else if noise_value > 0.5 then medium_green.lerp light_green ((noise_value - 0.5) * 2)
      else light_green
    else terrain_color
  let intensity_variation := 0.9 + noise_value * 0.1
  vegetation_color * fragment.intensity * intensity_variation

open Classical in
/-- gaseoso_shader from src/shaders.rs lines 202-230. -/
noncomputable def gaseoso_shader (fragment : Fragment) (uniforms : Uniforms) : Color :=
  let zoom : ℝ := 1000
  let ox : ℝ := 50
  let oy : ℝ := 50
  let x := fragment.vertex_position.x
  let y := fragment.vertex_position.y
  let t := (uniforms.time : ℝ) * 0.1
  let base_color := Color.new 128 0 0
  let band_color := Color.new 255 204 153
  let storm_color := Color.new 192 57 43
  let noise_value := uniforms.noise.get_noise_2d (x * zoom + ox) (y * zoom * 0.5 + oy + t)
  let band_intensity := noise_value * 0.5 + 0.5
  let storm_noise := uniforms.noise.get_noise_2d (x * zoom * 1.5 + ox) (y * zoom * 1.5 + oy + t)
  let storm_intensity := storm_noise * 0.5 + 0.5
  let color :=
    if band_intensity > 0.6 then base_color.lerp band_color band_intensity
    else if storm_intensity > 0.7 then storm_color
    else base_color
  color * fragment.intensity

open Classical in
/-- death_star_shader from src/shaders.rs lines 232-261; its uniforms
argument is never read. -/
noncomputable def death_star_shader (fragment : Fragment) (_uniforms : Uniforms) : Color :=
  let position := fragment.vertex_position
  let x := position.x
  let y := position.y
  let line_spacing : ℝ := 0.1
  let line_width : ℝ := 0.02
  let circle_radius : ℝ := 0.16
  let center : Vec3 := ⟨0, 0.17, 0⟩
  let line_color := Color.new 128 128 128
  let circle_color := Color.new 64 64 64
  let background_color := Color.new 102 102 102
  let in_vertical_line := |rust_fract (x / line_spacing)| < line_width
  let in_horizontal_line := |rust_fract (y / line_spacing)| < line_width
  let distance_from_center := Real.sqrt ((x - center.x) ^ 2 + (y - center.y) ^ 2)
  let in_circle := distance_from_center ≤ circle_radius
  let final_color :=
    if in_circle then circle_color
    else if in_vertical_line ∨ in_horizontal_line then line_color
    else background_color
  final_color * fragment.intensity

open Classical in
/-- tatooine_shader from src/shaders.rs lines 263-303. -/
noncomputable def tatooine_shader (fragment : Fragment) (uniforms : Uniforms) : Color :=
  let zoom : ℝ := 1000
  let time_factor := (uniforms.time : ℝ) * 0.01
  let x := fragment.vertex_position.x
  let y := fragment.vertex_position.y
  let base_rock_color := Color.new 139 69 19
  let mountain_color := Color.new 105 105 105
  let plain_color := Color.new 205 133 63
  let land_color := Color.new 163 163 117
  let base_noise :=
    uniforms.noise.get_noise_2d (x * zoom * 0.5 + time_factor) (y * zoom * 0.5 + time_factor)
  let mountain_noise :=
    uniforms.noise.get_noise_2d (x * zoom + time_factor * 0.5) (y * zoom + time_factor * 0.5)
  let continent_shift := Real.sin ((uniforms.time : ℝ) * 0.005) * 0.1
  let continental_noise :=
    uniforms.noise.get_noise_2d ((x + continent_shift) * zoom * 0.8)
      ((y + continent_shift) * zoom * 0.8)
  let mountain_threshold : ℝ := 0.6
  let land_threshold : ℝ := -0.3
  let final_color :=
    if base_noise > mountain_threshold then mountain_color.lerp base_rock_color mountain_noise
    else if continental_noise < land_threshold then land_color
    else plain_color.lerp base_rock_color continental_noise
  final_color * fragment.intensity

/-- fragment_shader from src/shaders.rs lines 47-58: dispatch by the u8
shader tag (modelled as ℕ); every tag above 6 falls to the default arm
returning black. -/
noncomputable def fragment_shader (fragment : Fragment) (uniforms : Uniforms)
    (current_shader : ℕ) : Color :=
  match current_shader with
  | 0 => tatooine_shader fragment uniforms
  | 1 => death_star_shader fragment uniforms
  | 2 => gaseoso_shader fragment uniforms
  | 3 => kamino_shader fragment uniforms
  | 4 => sol_shader fragment uniforms
  | 5 => hoth_shader fragment uniforms
  | 6 => kashyyyk_shader fragment uniforms
  | _ => Color.black

/- ================= Concrete sample values used by witnesses ================= -/

/-- A concrete noise source (constant zero samples). -/
def sampleNoise : NoiseSource := ⟨fun _ _ => 0, fun _ _ _ => 0⟩

/-- A concrete uniforms bundle: identity matrices, time 0. -/
noncomputable def sampleUniforms : Uniforms := ⟨1, 1, 1, 1, 0, sampleNoise⟩

/-- A second concrete uniforms bundle differing from sampleUniforms in
time and noise. -/
noncomputable def sampleUniformsB : Uniforms := ⟨1, 1, 1, 1, 5, ⟨fun _ _ => 1, fun _ _ _ => 1⟩⟩

/-- A concrete fragment at screen position (0, 0). -/
noncomputable def sampleFragment : Fragment := ⟨⟨0, 0⟩, 0, 1, ⟨0, 0, 0⟩⟩

/-- A concrete vertex. -/
noncomputable def sampleVertex : Vertex :=
  ⟨⟨1, 2, 3⟩, ⟨0, 0, 1⟩, ⟨0, 0⟩, ⟨255, 0, 0⟩, ⟨0, 0, 0⟩, ⟨0, 0, 0⟩⟩

/- ================= Claims ================= -/

/-- Claim C9: vertex_shader is clone-with-overrides: the returned vertex
keeps the input position, normal, tex_coords and color fields equal to
those of the input; only transformed_position and transformed_normal
are newly computed.  The Rust function takes the vertex by shared
reference and builds a fresh Vertex (src/shaders.rs lines 37-44), and
the embedding is a pure function, so the input is never mutated. -/
theorem c9_vertex_shader_clone_with_overrides (v : Vertex) (u : Uniforms) :
    (vertex_shader v u).position = v.position ∧
    (vertex_shader v u).normal = v.normal ∧
    (vertex_shader v u).tex_coords = v.tex_coords ∧
    (vertex_shader v u).color = v.color :=
  ⟨rfl, rfl, rfl, rfl⟩

/-- Claim C5: for all viewport dimensions, the viewport matrix of
src/main.rs lines 102-109 maps a point (x, y, z) to
(width/2 * x + width/2, -height/2 * y + height/2, z): Y is flipped and
depth passes through unscaled.  Proved for every NDC point, in
particular those in the [-1,1] square named by the claim. -/
theorem c5_viewport_matrix_maps_ndc_to_pixels (width height x y z : ℝ) :
    mulVec4 (create_viewport_matrix width height) ⟨x, y, z, 1⟩ =
      ⟨width / 2 * x + width / 2, -(height / 2) * y + height / 2, z, 1⟩ := by
  simp [mulVec4, create_viewport_matrix, Matrix.vecHead, Matrix.vecTail, Vec4.mk.injEq]
  ring_nf

/-- Claim C2: the orbital placement computed inline by the render loop
(src/main.rs lines 216-222) for an object with initial offset (3, 0, 0)
and angular velocity 0.01 at integer time t = 100 is exactly
(3 cos 1, 3 sin 1, 0). -/
theorem c2_orbit_position_at_t100 :
    orbit_translation ⟨3, 0, 0⟩ (frame_angle 100 0.01) =
      ⟨3 * Real.cos 1, 3 * Real.sin 1, 0⟩ := by
  norm_num [orbit_translation, frame_angle, Vec3.mk.injEq]

/-- Claim C8: death_star_shader ignores the uniforms entirely (in
particular the noise source): its output on any fragment is the same
for any two uniforms values, and is determined only by the fragment
vertex_position and intensity fields. -/
theorem c8_death_star_shader_uniforms_independent :
    (∀ (f : Fragment) (u₁ u₂ : Uniforms),
      death_star_shader f u₁ = death_star_shader f u₂) ∧
    (∀ (f₁ f₂ : Fragment) (u₁ u₂ : Uniforms),
      f₁.vertex_position = f₂.vertex_position → f₁.intensity = f₂.intensity →
      death_star_shader f₁ u₁ = death_star_shader f₂ u₂) := by
  refine ⟨fun f u₁ u₂ => rfl, fun f₁ f₂ u₁ u₂ hp hi => ?_⟩
  simp only [death_star_shader, hp, hi]

/-- Witness for C8 at concrete inputs: two uniforms bundles that differ
in both time and noise source give the same color. -/
theorem c8_death_star_shader_uniforms_independent_witness :
    death_star_shader sampleFragment sampleUniforms =
      death_star_shader sampleFragment sampleUniformsB :=
  c8_death_star_shader_uniforms_independent.2 sampleFragment sampleFragment
    sampleUniforms sampleUniformsB rfl rfl

/-- Claim C10: fragment_shader dispatches tags 0 to 6 to exactly the
corresponding directly-bound shader (tatooine, death star, gaseoso,
kamino, sol, hoth, kashyyyk) and returns black for every tag of 7 or
more (every other u8 value falls to the default arm). -/
theorem c10_fragment_shader_dispatch (f : Fragment) (u : Uniforms) :
    fragment_shader f u 0 = tatooine_shader f u ∧
    fragment_shader f u 1 = death_star_shader f u ∧
    fragment_shader f u 2 = gaseoso_shader f u ∧
    fragment_shader f u 3 = kamino_shader f u ∧
    fragment_shader f u 4 = sol_shader f u ∧
    fragment_shader f u 5 = hoth_shader f u ∧
    fragment_shader f u 6 = kashyyyk_shader f u ∧
    ∀ tag : ℕ, 7 ≤ tag → fragment_shader f u tag = Color.black := by
  refine ⟨rfl, rfl, rfl, rfl, rfl, rfl, rfl, fun tag htag => ?_⟩
  obtain ⟨k, rfl⟩ : ∃ k, tag = k + 7 := ⟨tag - 7, by omega⟩
  rfl

/-- Witness for C10: the out-of-range tag 7 at concrete inputs yields
black. -/
theorem c10_fragment_shader_dispatch_witness :
    fragment_shader sampleFragment sampleUniforms 7 = Color.black :=
  (c10_fragment_shader_dispatch sampleFragment sampleUniforms).2.2.2.2.2.2.2 7 (by norm_num)

/-- Helper for C7: primitive assembly emits one triangle per three input
vertices. -/
theorem primitive_assembly_length {α : Type} :
    (vs : List α) → (primitive_assembly vs).length = vs.length / 3
  | [] => by simp [primitive_assembly]
  | [_] => by simp [primitive_assembly]
  | [_, _] => by simp [primitive_assembly]
  | _ :: _ :: _ :: rest => by
    simp only [primitive_assembly, List.length_cons]
    rw [primitive_assembly_length rest]
    omega

/-- Helper for C7: flattening the assembled triangles recovers exactly
the first 3 * (n / 3) input vertices in order. -/
theorem primitive_assembly_flatten {α : Type} :
    (vs : List α) → (primitive_assembly vs).flatMap (fun t => [t.1, t.2.1, t.2.2]) =
      vs.take (3 * (vs.length / 3))
  | [] => by simp [primitive_assembly]
  | [_] => by simp [primitive_assembly]
  | [_, _] => by simp [primitive_assembly]
  | a :: b :: c :: rest => by
    have h : 3 * ((rest.length + 1 + 1 + 1) / 3) = 3 * (rest.length / 3) + 1 + 1 + 1 := by
      omega
    simp only [primitive_assembly, List.flatMap_cons, List.length_cons, h, List.take_succ_cons,
      List.cons_append, List.nil_append]
    rw [primitive_assembly_flatten rest]

/-- Claim C7: primitive assembly (src/main.rs lines 123-133) produces
exactly floor(n/3) triangles from consecutive non-overlapping triples
in order, and the trailing n mod 3 vertices are dropped: flattening the
triangle list gives back exactly the first 3 * floor(n/3) vertices. -/
theorem c7_primitive_assembly_consecutive_triples (α : Type) (vs : List α) :
    (primitive_assembly vs).length = vs.length / 3 ∧
    (primitive_assembly vs).flatMap (fun t => [t.1, t.2.1, t.2.2]) =
      vs.take (3 * (vs.length / 3)) :=
  ⟨primitive_assembly_length vs, primitive_assembly_flatten vs⟩

/-- Claim C4: create_model_matrix (src/main.rs lines 50-86) equals the
product Translation * Scale * (Rz * Ry * Rx): the combined
translate-scale matrix built by the source is exactly the translation
matrix times the uniform scale matrix, applied to the Z-then-Y-then-X
rotation product. -/
theorem c4_create_model_matrix_decomposition (t : Vec3) (s : ℝ) (r : Vec3) :
    create_model_matrix t s r =
      translation_matrix t * scale_matrix s *
        (rotation_matrix_z r.z * rotation_matrix_y r.y * rotation_matrix_x r.x) := by
  have h : translation_matrix t * scale_matrix s =
      !![s, 0, 0, t.x; 0, s, 0, t.y; 0, 0, s, t.z; 0, 0, 0, 1] := by
    ext i j
    fin_cases i <;> fin_cases j <;>
      simp [translation_matrix, scale_matrix, Matrix.mul_apply, Fin.sum_univ_four,
        Matrix.vecHead, Matrix.vecTail]
  rw [h, create_model_matrix]

/-- Helper: applying the identity matrix leaves a 3-vector unchanged. -/
theorem mulVec3_one (v : Vec3) : mulVec3 1 v = v := by
  cases v
  simp [mulVec3, Matrix.one_apply]

/-- Helper: try_inverse3 on a singular matrix is none. -/
theorem try_inverse3_of_det_eq_zero {M : Mat3} (h : M.det = 0) : try_inverse3 M = none := by
  simp [try_inverse3, h]

/-- Helper: try_inverse3 on a matrix with nonzero determinant is its
inverse. -/
theorem try_inverse3_of_det_ne_zero {M : Mat3} (h : M.det ≠ 0) : try_inverse3 M = some M⁻¹ := by
  simp [try_inverse3, h]

/-- Claim C6: vertex_shader (src/shaders.rs lines 32-35) transforms the
vertex normal by the transpose-inverse of the upper 3 by 3 block of the
model matrix; when that block is singular the identity is used instead,
so the normal transform is total.  When the block is invertible the
matrix used is a genuine two-sided inverse of the transposed block. -/
theorem c6_normal_transform_with_identity_fallback (v : Vertex) (u : Uniforms) :
    ((mat4_to_mat3 u.model_matrix).det = 0 →
      (vertex_shader v u).transformed_normal = v.normal) ∧
    ((mat4_to_mat3 u.model_matrix).det ≠ 0 →
      (vertex_shader v u).transformed_normal =
        mulVec3 ((mat4_to_mat3 u.model_matrix).transpose)⁻¹ v.normal ∧
      ((mat4_to_mat3 u.model_matrix).transpose)⁻¹ * (mat4_to_mat3 u.model_matrix).transpose = 1 ∧
      (mat4_to_mat3 u.model_matrix).transpose * ((mat4_to_mat3 u.model_matrix).transpose)⁻¹
        = 1) := by
  have hnorm : (vertex_shader v u).transformed_normal =
      mulVec3 ((try_inverse3 (mat4_to_mat3 u.model_matrix).transpose).getD 1) v.normal := rfl
  constructor
  · intro hdet
    have hdetT : ((mat4_to_mat3 u.model_matrix).transpose).det = 0 := by
      rw [Matrix.det_transpose]; exact hdet
    rw [hnorm, try_inverse3_of_det_eq_zero hdetT, Option.getD_none, mulVec3_one]
  · intro hdet
    have hdetT : ((mat4_to_mat3 u.model_matrix).transpose).det ≠ 0 := by
      rw [Matrix.det_transpose]; exact hdet
    have hunit : IsUnit ((mat4_to_mat3 u.model_matrix).transpose).det :=
      isUnit_iff_ne_zero.mpr hdetT
    refine ⟨?_, Matrix.nonsing_inv_mul _ hunit, Matrix.mul_nonsing_inv _ hunit⟩
    rw [hnorm, try_inverse3_of_det_ne_zero hdetT, Option.getD_some]

/-- A uniforms bundle whose model matrix is the zero matrix, whose upper
3 by 3 block is singular. -/
noncomputable def singularModelUniforms : Uniforms := ⟨0, 1, 1, 1, 0, sampleNoise⟩

/-- Witness for C6: with the zero model matrix the upper block is
singular and the transformed normal is the unchanged input normal. -/
theorem c6_normal_transform_with_identity_fallback_witness :
    (mat4_to_mat3 singularModelUniforms.model_matrix).det = 0 ∧
    (vertex_shader sampleVertex singularModelUniforms).transformed_normal =
      sampleVertex.normal := by
  have hdet : (mat4_to_mat3 singularModelUniforms.model_matrix).det = 0 := by
    simp [mat4_to_mat3, singularModelUniforms, Matrix.det_fin_three]
  exact ⟨hdet,
    (c6_normal_transform_with_identity_fallback sampleVertex singularModelUniforms).1 hdet⟩

/-- A fragment whose screen position has a negative x coordinate. -/
noncomputable def negFragment : Fragment := ⟨⟨-5, 10⟩, 0, 1, ⟨0, 0, 0⟩⟩

/-- Counterexample to claim C3 as stated: a fragment at position
(-5.0, 10.0) lies outside the buffer (negative x), yet the fragment
loop of render does not drop it: the Rust saturating cast
`(-5.0f32) as usize` yields 0, the bounds test 0 < 800 and 10 < 600
passes, and a pixel is written at (0, 10). -/
theorem c3_counterexample_negative_x_written :
    negFragment.position.x < 0 ∧
    process_fragments 800 600 (fun _ _ => Color.black) sampleUniforms [negFragment] =
      [⟨0, 10, 0, Color.black⟩] := by
  constructor
  · norm_num [negFragment]
  · have hx : rust_f32_as_usize (-5 : ℝ) = 0 := by
      norm_num [rust_f32_as_usize]
    have hy : rust_f32_as_usize (10 : ℝ) = 10 := by
      rw [rust_f32_as_usize, if_neg (by norm_num)]
      norm_num
      decide
    simp [process_fragments, negFragment, hx, hy]

/-- Claim C3 as amended: every pixel written by the fragment loop of
render (src/main.rs lines 141-152) has coordinates inside the buffer,
and a fragment is dropped exactly when its position, after the Rust
saturating f32-to-usize cast (which truncates and maps negative values
to 0, not to a dropped fragment), has x at or beyond width or y at or
beyond height. -/
theorem c3_fragment_bounds_check_amended (width height : ℕ)
    (shader_fn : Fragment → Uniforms → Color) (u : Uniforms) (fragments : List Fragment) :
    (∀ pw ∈ process_fragments width height shader_fn u fragments,
      pw.x < width ∧ pw.y < height) ∧
    (∀ f : Fragment, process_fragments width height shader_fn u [f] = [] ↔
      (width ≤ rust_f32_as_usize f.position.x ∨ height ≤ rust_f32_as_usize f.position.y)) := by
  constructor
  · intro pw hpw
    simp only [process_fragments, List.mem_filterMap] at hpw
    obtain ⟨f, -, hf⟩ := hpw
    split_ifs at hf with hc
    obtain rfl := Option.some.inj hf
    exact hc
  · intro f
    by_cases hc : rust_f32_as_usize f.position.x < width ∧ rust_f32_as_usize f.position.y < height
    · simp only [process_fragments, List.filterMap_cons, List.filterMap_nil]
      rw [if_pos hc]
      simp only [List.cons_ne_nil, false_iff]
      omega
    · simp only [process_fragments, List.filterMap_cons, List.filterMap_nil]
      rw [if_neg hc]
      simp only [true_iff]
      omega

/-- Witness for C3 amended at a concrete input: the single pixel written
for negFragment in an 800 by 600 buffer is in bounds. -/
theorem c3_fragment_bounds_check_amended_witness :
    (⟨0, 10, 0, Color.black⟩ : PixelWrite).x < 800 ∧
    (⟨0, 10, 0, Color.black⟩ : PixelWrite).y < 600 := by
  refine (c3_fragment_bounds_check_amended 800 600 (fun _ _ => Color.black) sampleUniforms
    [negFragment]).1 ⟨0, 10, 0, Color.black⟩ ?_
  have hx : rust_f32_as_usize (-5 : ℝ) = 0 := by
    norm_num [rust_f32_as_usize]
  have hy : rust_f32_as_usize (10 : ℝ) = 10 := by
    rw [rust_f32_as_usize, if_neg (by norm_num)]
    norm_num
    decide
  simp [process_fragments, negFragment, hx, hy]

/-- A perspective-style projection matrix with the glm bottom row
(0, 0, -1, 0), so clip w equals the negated view-space z. -/
noncomputable def degenerateProjection : Mat4 :=
  !![1, 0, 0, 0;
     0, 1, 0, 0;
     0, 0, -1, -0.2;
     0, 0, -1, 0]

/-- Uniforms with identity model and view and the perspective-style
projection above: a vertex on the camera plane then has clip w = 0. -/
noncomputable def degenerateUniforms : Uniforms :=
  ⟨1, 1, degenerateProjection, 1, 0, sampleNoise⟩

/-- A vertex sitting at the origin, which lies on the camera plane of
degenerateUniforms. -/
noncomputable def originVertex : Vertex :=
  ⟨⟨0, 0, 0⟩, ⟨0, 0, 1⟩, ⟨0, 0⟩, ⟨255, 255, 255⟩, ⟨0, 0, 0⟩, ⟨0, 0, 0⟩⟩

/-- Claim C1 (code defect): the perspective divide in vertex_shader
(src/shaders.rs lines 22-28) is not guarded against w = 0.  The clip
w of the reachable input originVertex under degenerateUniforms is
exactly 0, and vertex_shader still computes its screen position by
dividing through by that w: no discard or clamp branch exists.  In this
exact-real embedding division by zero is total (x / 0 = 0), so the
result below is the viewport image of (0, 0, 0); under the IEEE f32
semantics of the source the same division yields non-finite (NaN or
infinite) screen coordinates, contradicting the claimed guard. -/
theorem c1_perspective_divide_unguarded :
    clip_w degenerateUniforms originVertex.position = 0 ∧
    (vertex_shader originVertex degenerateUniforms).transformed_position =
      ⟨(0 : ℝ) / 0, (0 : ℝ) / 0, (-0.2 : ℝ) / 0⟩ := by
  constructor
  · simp [clip_w, degenerateUniforms, degenerateProjection, originVertex, mulVec4,
      Matrix.mul_one, Matrix.vecHead, Matrix.vecTail]
  · simp [vertex_shader, degenerateUniforms, degenerateProjection, originVertex, mulVec4,
      Matrix.mul_one, Matrix.vecHead, Matrix.vecTail, mat4_to_mat3]

end Proyecto3
